import Mathlib

/-!
Verification of the f1-telemetry packet decoder.

The Rust sources are embedded shallowly:
* a byte buffer is a `List Nat` (each element a byte value `< 256`);
* a cursor-based reader (`std::io::Cursor` plus the `byteorder` read
  methods) is a function from buffer and offset to an outcome carrying the
  value read and the new offset;
* a Rust `Result<_, UnpackError>` is the `ok`/`err` constructors of
  `DecodeOutcome`, `UnpackError(String)` being represented by its message
  string;
* a Rust panic (an `.unwrap()` on a failed read, or an out-of-bounds
  slice index) is the `panicked` constructor;
* an `f32` field is kept as its raw 32-bit little-endian pattern (a `Nat`),
  since no claim depends on float arithmetic.
-/

set_option maxRecDepth 4096

deriving instance DecidableEq for Except

/-- Outcome of running a piece of the decoder: a value, a decode error
(`UnpackError` message), or a Rust panic. -/
inductive DecodeOutcome (α : Type) where
  | ok (a : α)
  | err (e : String)
  | panicked
deriving DecidableEq, Repr

/-- A cursor-based reader over a byte buffer: from buffer and offset to an
outcome carrying the parsed value and the new offset. -/
def ByteReader (α : Type) : Type := List Nat → Nat → DecodeOutcome (α × Nat)

/-- Sequencing of readers; decode errors and panics propagate (the Rust
`?` operator, with panics aborting everything). -/
def rbind {α β : Type} (x : ByteReader α) (f : α → ByteReader β) : ByteReader β :=
  fun buf pos =>
    match x buf pos with
    | .ok (a, p) => f a buf p
    | .err e => .err e
    | .panicked => .panicked

/-- A reader returning a value without consuming input. -/
def rpure {α : Type} (a : α) : ByteReader α := fun _ pos => .ok (a, pos)

/-- Lift a fallible conversion (a Rust `TryFrom` result hit with `?`)
into a reader. -/
def rlift {α : Type} (r : Except String α) : ByteReader α :=
  fun _ pos =>
    match r with
    | .ok a => .ok (a, pos)
    | .error e => .err e

/-- `reader.read_u8().unwrap()`: one byte; reading past the end of the
buffer is an `.unwrap()` on an `Err`, i.e. a panic. -/
def read_u8 : ByteReader Nat :=
  fun buf pos =>
    match buf.get? pos with
    | some b => .ok (b, pos + 1)
    | none => .panicked

/-- `reader.read_u16::<LittleEndian>().unwrap()`: two bytes, little endian. -/
def read_u16 : ByteReader Nat :=
  rbind read_u8 fun b0 =>
  rbind read_u8 fun b1 =>
  rpure (b0 + 256 * b1)

/-- `reader.read_u32::<LittleEndian>().unwrap()`: four bytes, little endian. -/
def read_u32 : ByteReader Nat :=
  rbind read_u8 fun b0 =>
  rbind read_u8 fun b1 =>
  rbind read_u8 fun b2 =>
  rbind read_u8 fun b3 =>
  rpure (b0 + 256 * b1 + 65536 * b2 + 16777216 * b3)

/-- `reader.read_u64::<LittleEndian>().unwrap()`: eight bytes, little endian. -/
def read_u64 : ByteReader Nat :=
  rbind read_u32 fun lo =>
  rbind read_u32 fun hi =>
  rpure (lo + 4294967296 * hi)

/-- `reader.read_f32::<LittleEndian>().unwrap()`: four bytes, kept as the
raw IEEE-754 bit pattern. -/
def read_f32 : ByteReader Nat := read_u32

/-- `reader.read_i8().unwrap()`: one byte, reinterpreted as a signed
8-bit value. -/
def read_i8 : ByteReader Int :=
  rbind read_u8 fun b =>
  rpure (if b < 128 then (b : Int) else (b : Int) - 256)

/-! ## Coded enums of the 2019 car-status module
(`src/f1-telemetry/src/f1_2019/car_status.rs`). -/

inductive TractionControl where
  | Off | Low | High
deriving DecidableEq, Repr

/-- `impl TryFrom<u8> for TractionControl`. -/
def TractionControl.tryFrom (value : Nat) : Except String TractionControl :=
  match value with
  | 0 => .ok TractionControl.Off
  | 1 => .ok TractionControl.Low
  | 2 => .ok TractionControl.High
  | _ => .error ("Invalid TractionControl value: " ++ Nat.repr value)

inductive FuelMix where
  | LeanMix | Standard | Rich | Max
deriving DecidableEq, Repr

/-- `impl TryFrom<u8> for FuelMix` (the source's first variant is named
for a lean fuel mixture; it is rendered `LeanMix` here). -/
def FuelMix.tryFrom (value : Nat) : Except String FuelMix :=
  match value with
  | 0 => .ok FuelMix.LeanMix
  | 1 => .ok FuelMix.Standard
  | 2 => .ok FuelMix.Rich
  | 3 => .ok FuelMix.Max
  | _ => .error ("Invalid FuelMix value: " ++ Nat.repr value)

inductive DRS where
  | NotAllowed | Allowed | Unknown
deriving DecidableEq, Repr

/-- `impl TryFrom<i8> for DRS` (the match arms `0`, `1`, `-1` in source
order; the patterns are disjoint, so an if-chain is equivalent). -/
def DRS.tryFrom (value : Int) : Except String DRS :=
  if value = 0 then .ok DRS.NotAllowed
  else if value = 1 then .ok DRS.Allowed
  else if value = -1 then .ok DRS.Unknown
  else .error ("Invalid DRS value: " ++ Int.repr value)

inductive TyreCompound where
  | C5 | C4 | C3 | C2 | C1
  | Inter | Wet
  | ClassicDry | ClassicWet
  | F2SuperSoft | F2Soft | F2Medium | F2Hard | F2Wet
  | Invalid
deriving DecidableEq, Repr

/-- `impl TryFrom<u8> for TyreCompound`. -/
def TyreCompound.tryFrom (value : Nat) : Except String TyreCompound :=
  match value with
  | 16 => .ok TyreCompound.C5
  | 17 => .ok TyreCompound.C4
  | 18 => .ok TyreCompound.C3
  | 19 => .ok TyreCompound.C2
  | 20 => .ok TyreCompound.C1
  | 7 => .ok TyreCompound.Inter
  | 8 => .ok TyreCompound.Wet
  | 9 => .ok TyreCompound.ClassicDry
  | 10 => .ok TyreCompound.ClassicWet
  | 11 => .ok TyreCompound.F2SuperSoft
  | 12 => .ok TyreCompound.F2Soft
  | 13 => .ok TyreCompound.F2Medium
  | 14 => .ok TyreCompound.F2Hard
  | 15 => .ok TyreCompound.F2Wet
  | 0 => .ok TyreCompound.Invalid
  | 255 => .ok TyreCompound.Invalid
  | _ => .error ("Invalid TyreCompound value: " ++ Nat.repr value)

inductive TyreCompoundVisual where
  | Soft | Medium | Hard
  | Inter | Wet
  | ClassicDry | ClassicWet
  | F2SuperSoft | F2Soft | F2Medium | F2Hard | F2Wet
  | Invalid
deriving DecidableEq, Repr

/-- `impl TryFrom<u8> for TyreCompoundVisual`. Note that (unlike
`TyreCompound`) only `0` maps to `Invalid`; `255` falls through to the
error arm. -/
def TyreCompoundVisual.tryFrom (value : Nat) : Except String TyreCompoundVisual :=
  match value with
  | 16 => .ok TyreCompoundVisual.Soft
  | 17 => .ok TyreCompoundVisual.Medium
  | 18 => .ok TyreCompoundVisual.Hard
  | 7 => .ok TyreCompoundVisual.Inter
  | 8 => .ok TyreCompoundVisual.Wet
  | 9 => .ok TyreCompoundVisual.ClassicDry
  | 10 => .ok TyreCompoundVisual.ClassicWet
  | 11 => .ok TyreCompoundVisual.F2SuperSoft
  | 12 => .ok TyreCompoundVisual.F2Soft
  | 13 => .ok TyreCompoundVisual.F2Medium
  | 14 => .ok TyreCompoundVisual.F2Hard
  | 15 => .ok TyreCompoundVisual.F2Wet
  | 0 => .ok TyreCompoundVisual.Invalid
  | _ => .error ("Invalid TyreCompoundVisual value: " ++ Nat.repr value)

inductive ERSDeployMode where
  | None | Low | Medium | High | Overtake | Hotlap
deriving DecidableEq, Repr

/-- `impl TryFrom<u8> for ERSDeployMode`. -/
def ERSDeployMode.tryFrom (value : Nat) : Except String ERSDeployMode :=
  match value with
  | 0 => .ok ERSDeployMode.None
  | 1 => .ok ERSDeployMode.Low
  | 2 => .ok ERSDeployMode.Medium
  | 3 => .ok ERSDeployMode.High
  | 4 => .ok ERSDeployMode.Overtake
  | 5 => .ok ERSDeployMode.Hotlap
  | _ => .error ("Invalid ERSDeployMode value: " ++ Nat.repr value)

/-- Modelled from the spec: the flag-state validator
(`Flag::try_from(i8)` lives in the crate's `generic` module, which is not
under `src/`). The spec describes it as a signed 8-bit coded field whose
negative sentinel means unknown and whose codes outside the closed table
are an `InvalidCode` error, never a default variant. Named `FiaFlag`
because Mathlib already has a root-level `Flag`. -/
inductive FiaFlag where
  | Invalid | None | Green | Blue | Yellow | Red
deriving DecidableEq, Repr

/-- Modelled from the spec: the table of the flag-state validator
(negative sentinel preserved as a distinct variant, out-of-table codes
rejected). -/
def FiaFlag.tryFrom (value : Int) : Except String FiaFlag :=
  if value = -1 then .ok FiaFlag.Invalid
  else if value = 0 then .ok FiaFlag.None
  else if value = 1 then .ok FiaFlag.Green
  else if value = 2 then .ok FiaFlag.Blue
  else if value = 3 then .ok FiaFlag.Yellow
  else if value = 4 then .ok FiaFlag.Red
  else .error ("Invalid Flag value: " ++ Int.repr value)

/-- Claim C4: the actual-compound validator maps both 255 and 0 to the same
`Invalid` variant and maps 16 to the newest soft compound, but the claim
also asserts this of the visual-compound validator, and
`TyreCompoundVisual::try_from(255)` returns an error, not `Invalid`. -/
theorem C4_visual_compound_counterexample :
    TyreCompoundVisual.tryFrom 255 ≠ .ok TyreCompoundVisual.Invalid
    ∧ TyreCompoundVisual.tryFrom 255
        = .error ("Invalid TyreCompoundVisual value: 255") := by
  constructor
  · decide
  · decide

/-- Claim C4 (amended): the actual-compound validator maps 255 and 0 to the
same `Invalid` variant and 16 to the newest soft compound `C5`; the
visual-compound validator maps 0 to `Invalid` and 16 to its newest soft
variant `Soft`, but rejects 255 with an invalid-code error. -/
theorem C4_tyre_compound_amended :
    TyreCompound.tryFrom 255 = .ok TyreCompound.Invalid
    ∧ TyreCompound.tryFrom 0 = .ok TyreCompound.Invalid
    ∧ TyreCompound.tryFrom 255 = TyreCompound.tryFrom 0
    ∧ TyreCompound.tryFrom 16 = .ok TyreCompound.C5
    ∧ TyreCompoundVisual.tryFrom 0 = .ok TyreCompoundVisual.Invalid
    ∧ TyreCompoundVisual.tryFrom 16 = .ok TyreCompoundVisual.Soft
    ∧ TyreCompoundVisual.tryFrom 255
        = .error ("Invalid TyreCompoundVisual value: 255") := by
  refine ⟨?_, ?_, ?_, ?_, ?_, ?_, ?_⟩ <;> decide

/-- Claim C5: each coded-enum validator (`TractionControl`, `FuelMix`,
`ERSDeployMode`) returns exactly the specified variant for every raw code
inside its table, and an invalid-code error — never a default variant —
for every raw code outside it. -/
theorem C5_coded_enum_tables :
    ∀ v : Fin 256,
      (TractionControl.tryFrom 0 = .ok TractionControl.Off
        ∧ TractionControl.tryFrom 1 = .ok TractionControl.Low
        ∧ TractionControl.tryFrom 2 = .ok TractionControl.High
        ∧ (2 < v.val →
            TractionControl.tryFrom v.val
              = .error ("Invalid TractionControl value: " ++ Nat.repr v.val)))
      ∧ (FuelMix.tryFrom 0 = .ok FuelMix.LeanMix
        ∧ FuelMix.tryFrom 1 = .ok FuelMix.Standard
        ∧ FuelMix.tryFrom 2 = .ok FuelMix.Rich
        ∧ FuelMix.tryFrom 3 = .ok FuelMix.Max
        ∧ (3 < v.val →
            FuelMix.tryFrom v.val
              = .error ("Invalid FuelMix value: " ++ Nat.repr v.val)))
      ∧ (ERSDeployMode.tryFrom 0 = .ok ERSDeployMode.None
        ∧ ERSDeployMode.tryFrom 1 = .ok ERSDeployMode.Low
        ∧ ERSDeployMode.tryFrom 2 = .ok ERSDeployMode.Medium
        ∧ ERSDeployMode.tryFrom 3 = .ok ERSDeployMode.High
        ∧ ERSDeployMode.tryFrom 4 = .ok ERSDeployMode.Overtake
        ∧ ERSDeployMode.tryFrom 5 = .ok ERSDeployMode.Hotlap
        ∧ (5 < v.val →
            ERSDeployMode.tryFrom v.val
              = .error ("Invalid ERSDeployMode value: " ++ Nat.repr v.val))) := by
  decide

/-- Claim C8: the DRS-availability validator maps the negative sentinel -1
to a distinct `Unknown` variant (not the variant for code 0), maps 0 to
`NotAllowed` and 1 to `Allowed`, and rejects every other signed 8-bit code
with an invalid-code error. -/
theorem C8_drs_codes (v : Int) (_hlo : -128 ≤ v) (_hhi : v ≤ 127) :
    DRS.tryFrom (-1) = .ok DRS.Unknown
    ∧ DRS.Unknown ≠ DRS.NotAllowed
    ∧ DRS.tryFrom 0 = .ok DRS.NotAllowed
    ∧ DRS.tryFrom 1 = .ok DRS.Allowed
    ∧ (v ≠ 0 → v ≠ 1 → v ≠ -1 →
        DRS.tryFrom v = .error ("Invalid DRS value: " ++ Int.repr v)) := by
  refine ⟨by decide, by decide, by decide, by decide, ?_⟩
  intro h0 h1 hm1
  unfold DRS.tryFrom
  rw [if_neg h0, if_neg h1, if_neg hm1]

/-- Witness for C8 at the concrete out-of-table code 5. -/
theorem C8_drs_codes_witness :
    DRS.tryFrom (-1) = .ok DRS.Unknown
    ∧ DRS.tryFrom 5 = .error ("Invalid DRS value: " ++ Int.repr 5) := by
  have h := C8_drs_codes 5 (by decide) (by decide)
  exact ⟨h.1, h.2.2.2.2 (by decide) (by decide) (by decide)⟩

/-! ## Packet header (`src/f1-telemetry/src/f1_2019/header.rs`)

The `PacketHeader` struct itself lives in the crate's `packet::header`
module, which is not under `src/`; its ten fields are modelled from the
spec's data model (format version, game major/minor version, packet
revision, packet type id, session UID, session time, frame identifier,
player car index, secondary player car index) and from the ten arguments
of the `PacketHeader::new` call in `parse_header`. -/

structure PacketHeader where
  packet_format : Nat
  game_major_version : Nat
  game_minor_version : Nat
  packet_version : Nat
  packet_id : Nat
  session_uid : Nat
  session_time : Nat
  frame_identifier : Nat
  player_car_index : Nat
  secondary_player_car_index : Nat
deriving DecidableEq, Repr

/-- `PacketHeader::size()` for the 2019 format. -/
def PacketHeader.size : Nat := 24

/-- `parse_header` of `f1_2019/header.rs`: nine little-endian reads, then
`PacketHeader::new(..., 255)` with the secondary player-car index fixed
to the constant 255. -/
def parse_header : ByteReader PacketHeader :=
  rbind read_u16 fun packet_format =>
  rbind read_u8 fun game_major_version =>
  rbind read_u8 fun game_minor_version =>
  rbind read_u8 fun packet_version =>
  rbind read_u8 fun packet_id =>
  rbind read_u64 fun session_uid =>
  rbind read_f32 fun session_time =>
  rbind read_u32 fun frame_identifier =>
  rbind read_u8 fun player_car_index =>
  rpure (PacketHeader.mk packet_format game_major_version game_minor_version
    packet_version packet_id session_uid session_time frame_identifier
    player_car_index 255)

/-! ## Car status decoding (`src/f1-telemetry/src/f1_2019/car_status.rs`)

`WheelData`, `CarStatusData` and `PacketCarStatusData` live in modules not
under `src/`; their fields are modelled from the constructor call sites in
`parse_car` / `parse_car_status_data` (one field per argument, in call
order) and the spec's data model. -/

structure WheelData where
  a : Nat
  b : Nat
  c : Nat
  d : Nat
deriving DecidableEq, Repr

structure CarStatusData where
  traction_control : TractionControl
  anti_lock_brakes : Bool
  fuel_mix : FuelMix
  front_brake_bias : Nat
  pit_limiter : Bool
  fuel_in_tank : Nat
  fuel_capacity : Nat
  fuel_remaining_laps : Nat
  max_rpm : Nat
  idle_rpm : Nat
  max_gears : Nat
  drs_allowed : DRS
  tyres_wear : WheelData
  actual_tyre_compound : TyreCompound
  visual_tyre_compound : TyreCompoundVisual
  tyres_damage : WheelData
  front_left_wing_damage : Nat
  front_right_wing_damage : Nat
  rear_wing_damage : Nat
  engine_damage : Nat
  gear_box_damage : Nat
  vehicle_fia_flags : FiaFlag
  ers_store_energy : Nat
  ers_deploy_mode : ERSDeployMode
  ers_harvested_this_lap_mguk : Nat
  ers_harvested_this_lap_mguh : Nat
  ers_deployed_this_lap : Nat
deriving DecidableEq, Repr

structure PacketCarStatusData where
  header : PacketHeader
  car_status_data : List CarStatusData
deriving DecidableEq, Repr

/-- `parse_car` of `f1_2019/car_status.rs`: the 56-byte per-car record,
reads and validations in source order. -/
def parse_car : ByteReader CarStatusData :=
  rbind read_u8 fun traction_control_raw =>
  rbind (rlift (TractionControl.tryFrom traction_control_raw)) fun traction_control =>
  rbind read_u8 fun anti_lock_brakes_raw =>
  rbind read_u8 fun fuel_mix_raw =>
  rbind (rlift (FuelMix.tryFrom fuel_mix_raw)) fun fuel_mix =>
  rbind read_u8 fun front_brake_bias =>
  rbind read_u8 fun pit_limiter_raw =>
  rbind read_f32 fun fuel_in_tank =>
  rbind read_f32 fun fuel_capacity =>
  rbind read_f32 fun fuel_remaining_laps =>
  rbind read_u16 fun max_rpm =>
  rbind read_u16 fun idle_rpm =>
  rbind read_u8 fun max_gears =>
  rbind read_i8 fun drs_raw =>
  rbind (rlift (DRS.tryFrom drs_raw)) fun drs_allowed =>
  rbind read_u8 fun tw_a =>
  rbind read_u8 fun tw_b =>
  rbind read_u8 fun tw_c =>
  rbind read_u8 fun tw_d =>
  rbind read_u8 fun actual_tyre_compound_raw =>
  rbind (rlift (TyreCompound.tryFrom actual_tyre_compound_raw)) fun actual_tyre_compound =>
  rbind read_u8 fun visual_tyre_compound_raw =>
  rbind (rlift (TyreCompoundVisual.tryFrom visual_tyre_compound_raw)) fun visual_tyre_compound =>
  rbind read_u8 fun td_a =>
  rbind read_u8 fun td_b =>
  rbind read_u8 fun td_c =>
  rbind read_u8 fun td_d =>
  rbind read_u8 fun front_left_wing_damage =>
  rbind read_u8 fun front_right_wing_damage =>
  rbind read_u8 fun rear_wing_damage =>
  rbind read_u8 fun engine_damage =>
  rbind read_u8 fun gear_box_damage =>
  rbind read_i8 fun vehicle_fia_flags_raw =>
  rbind (rlift (FiaFlag.tryFrom vehicle_fia_flags_raw)) fun vehicle_fia_flags =>
  rbind read_f32 fun ers_store_energy =>
  rbind read_u8 fun ers_deploy_mode_raw =>
  rbind (rlift (ERSDeployMode.tryFrom ers_deploy_mode_raw)) fun ers_deploy_mode =>
  rbind read_f32 fun ers_harvested_this_lap_mguk =>
  rbind read_f32 fun ers_harvested_this_lap_mguh =>
  rbind read_f32 fun ers_deployed_this_lap =>
  rpure (CarStatusData.mk traction_control (anti_lock_brakes_raw == 1) fuel_mix
    front_brake_bias (pit_limiter_raw == 1) fuel_in_tank fuel_capacity
    fuel_remaining_laps max_rpm idle_rpm max_gears drs_allowed
    (WheelData.mk tw_a tw_b tw_c tw_d) actual_tyre_compound
    visual_tyre_compound (WheelData.mk td_a td_b td_c td_d)
    front_left_wing_damage front_right_wing_damage rear_wing_damage
    engine_damage gear_box_damage vehicle_fia_flags ers_store_energy
    ers_deploy_mode ers_harvested_this_lap_mguk ers_harvested_this_lap_mguh
    ers_deployed_this_lap)

/-- The `for _ in 0..20` loop of `parse_car_status_data`, generalized over
the iteration count; cars are pushed in increasing index order and the
first error aborts the loop (the `?` operator). -/
def parse_cars : Nat → ByteReader (List CarStatusData)
  | 0 => rpure []
  | n + 1 =>
    rbind parse_car fun csd =>
    rbind (parse_cars n) fun rest =>
    rpure (csd :: rest)

/-- `parse_car_status_data` of `f1_2019/car_status.rs`. -/
def parse_car_status_data (header : PacketHeader) : ByteReader PacketCarStatusData :=
  rbind (parse_cars 20) fun car_status_data =>
  rpure (PacketCarStatusData.mk header car_status_data)

/-! ## Cursor-advance reasoning -/

/-- A reader advances the cursor by exactly `w` bytes whenever it
succeeds. -/
def Advances {α : Type} (x : ByteReader α) (w : Nat) : Prop :=
  ∀ buf pos a q, x buf pos = .ok (a, q) → q = pos + w

theorem Advances.cast {α : Type} {x : ByteReader α} {m n : Nat}
    (h : Advances x m) (e : m = n) : Advances x n := e ▸ h

theorem advances_rpure {α : Type} (a : α) : Advances (rpure a) 0 := by
  intro buf pos b q h
  unfold rpure at h
  injection h with h1
  injection h1 with h2 h3
  omega

theorem advances_rlift {α : Type} (r : Except String α) : Advances (rlift r) 0 := by
  intro buf pos b q h
  unfold rlift at h
  cases r with
  | ok a =>
    injection h with h1
    injection h1 with h2 h3
    omega
  | error e => exact absurd h (by simp)

theorem advances_rbind {α β : Type} {x : ByteReader α} {f : α → ByteReader β}
    {m n : Nat} (hx : Advances x m) (hf : ∀ a, Advances (f a) n) :
    Advances (rbind x f) (m + n) := by
  intro buf pos b q h
  unfold rbind at h
  cases hx0 : x buf pos with
  | ok ap =>
    obtain ⟨a, p⟩ := ap
    rw [hx0] at h
    have h1 := hx buf pos a p hx0
    have h2 := hf a buf p b q h
    omega
  | err e => rw [hx0] at h; exact absurd h (by simp)
  | panicked => rw [hx0] at h; exact absurd h (by simp)

theorem advances_read_u8 : Advances read_u8 1 := by
  intro buf pos a q h
  unfold read_u8 at h
  cases hg : buf.get? pos with
  | some b =>
    rw [hg] at h
    injection h with h1
    injection h1 with h2 h3
    omega
  | none => rw [hg] at h; exact absurd h (by simp)

theorem advances_read_u16 : Advances read_u16 2 := by
  unfold read_u16
  exact (advances_rbind advances_read_u8 fun _ =>
    advances_rbind advances_read_u8 fun _ => advances_rpure _).cast (by norm_num)

theorem advances_read_u32 : Advances read_u32 4 := by
  unfold read_u32
  exact (advances_rbind advances_read_u8 fun _ =>
    advances_rbind advances_read_u8 fun _ =>
    advances_rbind advances_read_u8 fun _ =>
    advances_rbind advances_read_u8 fun _ => advances_rpure _).cast (by norm_num)

theorem advances_read_u64 : Advances read_u64 8 := by
  unfold read_u64
  exact (advances_rbind advances_read_u32 fun _ =>
    advances_rbind advances_read_u32 fun _ => advances_rpure _).cast (by norm_num)

theorem advances_read_f32 : Advances read_f32 4 := advances_read_u32

theorem advances_read_i8 : Advances read_i8 1 := by
  unfold read_i8
  exact (advances_rbind advances_read_u8 fun _ => advances_rpure _).cast (by norm_num)

/-- The 2019 header decoder consumes exactly 23 bytes on success. -/
theorem parse_header_advances : Advances parse_header 23 := by
  unfold parse_header
  exact (advances_rbind advances_read_u16 fun _ =>
    advances_rbind advances_read_u8 fun _ =>
    advances_rbind advances_read_u8 fun _ =>
    advances_rbind advances_read_u8 fun _ =>
    advances_rbind advances_read_u8 fun _ =>
    advances_rbind advances_read_u64 fun _ =>
    advances_rbind advances_read_f32 fun _ =>
    advances_rbind advances_read_u32 fun _ =>
    advances_rbind advances_read_u8 fun _ => advances_rpure _).cast (by norm_num)

/-- The per-car record of the 2019 car-status packet is exactly 56 bytes. -/
theorem parse_car_advances : Advances parse_car 56 := by
  unfold parse_car
  exact (advances_rbind advances_read_u8 fun _ =>
    advances_rbind (advances_rlift _) fun _ =>
    advances_rbind advances_read_u8 fun _ =>
    advances_rbind advances_read_u8 fun _ =>
    advances_rbind (advances_rlift _) fun _ =>
    advances_rbind advances_read_u8 fun _ =>
    advances_rbind advances_read_u8 fun _ =>
    advances_rbind advances_read_f32 fun _ =>
    advances_rbind advances_read_f32 fun _ =>
    advances_rbind advances_read_f32 fun _ =>
    advances_rbind advances_read_u16 fun _ =>
    advances_rbind advances_read_u16 fun _ =>
    advances_rbind advances_read_u8 fun _ =>
    advances_rbind advances_read_i8 fun _ =>
    advances_rbind (advances_rlift _) fun _ =>
    advances_rbind advances_read_u8 fun _ =>
    advances_rbind advances_read_u8 fun _ =>
    advances_rbind advances_read_u8 fun _ =>
    advances_rbind advances_read_u8 fun _ =>
    advances_rbind advances_read_u8 fun _ =>
    advances_rbind (advances_rlift _) fun _ =>
    advances_rbind advances_read_u8 fun _ =>
    advances_rbind (advances_rlift _) fun _ =>
    advances_rbind advances_read_u8 fun _ =>
    advances_rbind advances_read_u8 fun _ =>
    advances_rbind advances_read_u8 fun _ =>
    advances_rbind advances_read_u8 fun _ =>
    advances_rbind advances_read_u8 fun _ =>
    advances_rbind advances_read_u8 fun _ =>
    advances_rbind advances_read_u8 fun _ =>
    advances_rbind advances_read_u8 fun _ =>
    advances_rbind advances_read_u8 fun _ =>
    advances_rbind advances_read_i8 fun _ =>
    advances_rbind (advances_rlift _) fun _ =>
    advances_rbind advances_read_f32 fun _ =>
    advances_rbind advances_read_u8 fun _ =>
    advances_rbind (advances_rlift _) fun _ =>
    advances_rbind advances_read_f32 fun _ =>
    advances_rbind advances_read_f32 fun _ =>
    advances_rbind advances_read_f32 fun _ => advances_rpure _).cast (by norm_num)

/-- Inversion for successful `rbind`. -/
theorem rbind_ok_inv {α β : Type} {x : ByteReader α} {f : α → ByteReader β}
    {buf : List Nat} {pos : Nat} {b : β} {q : Nat}
    (h : rbind x f buf pos = .ok (b, q)) :
    ∃ a p, x buf pos = .ok (a, p) ∧ f a buf p = .ok (b, q) := by
  unfold rbind at h
  cases hx : x buf pos with
  | ok ap =>
    obtain ⟨a, p⟩ := ap
    rw [hx] at h
    exact ⟨a, p, rfl, h⟩
  | err e => rw [hx] at h; exact absurd h (by simp)
  | panicked => rw [hx] at h; exact absurd h (by simp)

/-- Inversion for failing `rbind`. -/
theorem rbind_err_inv {α β : Type} {x : ByteReader α} {f : α → ByteReader β}
    {buf : List Nat} {pos : Nat} {e : String}
    (h : rbind x f buf pos = .err e) :
    x buf pos = .err e ∨ ∃ a p, x buf pos = .ok (a, p) ∧ f a buf p = .err e := by
  unfold rbind at h
  cases hx : x buf pos with
  | ok ap =>
    obtain ⟨a, p⟩ := ap
    rw [hx] at h
    exact Or.inr ⟨a, p, rfl, h⟩
  | err e2 => rw [hx] at h; injection h with h1; exact Or.inl (by rw [h1])
  | panicked => rw [hx] at h; exact absurd h (by simp)

theorem rpure_ok_inv {α : Type} {a b : α} {buf : List Nat} {pos q : Nat}
    (h : rpure a buf pos = .ok (b, q)) : b = a ∧ q = pos := by
  unfold rpure at h
  injection h with h1
  injection h1 with h2 h3
  exact ⟨h2.symm, h3.symm⟩

/-- On success, the car loop decodes exactly its iteration count of cars, in
increasing index order, each from the 56 bytes preceding the next. -/
theorem parse_cars_ok (n : Nat) :
    ∀ buf pos cs q, parse_cars n buf pos = .ok (cs, q) →
      cs.length = n ∧ q = pos + 56 * n ∧
      ∀ i, i < n → ∃ c, cs.get? i = some c ∧
        parse_car buf (pos + 56 * i) = .ok (c, pos + 56 * (i + 1)) := by
  induction n with
  | zero =>
    intro buf pos cs q h
    unfold parse_cars at h
    obtain ⟨hcs, hq⟩ := rpure_ok_inv h
    subst hcs; subst hq
    exact ⟨rfl, by omega, fun i hi => absurd hi (by omega)⟩
  | succ n ih =>
    intro buf pos cs q h
    unfold parse_cars at h
    obtain ⟨c, p1, hc, h2⟩ := rbind_ok_inv h
    obtain ⟨rest, p2, hrest, h3⟩ := rbind_ok_inv h2
    obtain ⟨hcs, hq⟩ := rpure_ok_inv h3
    subst hcs; subst hq
    have hp1 : p1 = pos + 56 := parse_car_advances buf pos c p1 hc
    subst hp1
    obtain ⟨hlen, hq2, hslots⟩ := ih buf (pos + 56) rest q hrest
    refine ⟨by simp [hlen], by omega, ?_⟩
    intro i hi
    cases i with
    | zero =>
      refine ⟨c, rfl, ?_⟩
      have e1 : pos + 56 * 0 = pos := by omega
      have e2 : pos + 56 * (0 + 1) = pos + 56 := by omega
      rw [e1, e2]; exact hc
    | succ j =>
      obtain ⟨cj, hget, hpc⟩ := hslots j (by omega)
      refine ⟨cj, by simpa using hget, ?_⟩
      have e1 : pos + 56 * (j + 1) = pos + 56 + 56 * j := by ring
      have e2 : pos + 56 * (j + 1 + 1) = pos + 56 + 56 * (j + 1) := by ring
      rw [e1, e2]; exact hpc

/-- On failure, the car loop fails at the first slot whose record is
invalid, all earlier slots having decoded successfully. -/
theorem parse_cars_err (n : Nat) :
    ∀ buf pos e, parse_cars n buf pos = .err e →
      ∃ i, i < n ∧ parse_car buf (pos + 56 * i) = .err e ∧
        ∀ j, j < i → ∃ c, parse_car buf (pos + 56 * j)
          = .ok (c, pos + 56 * (j + 1)) := by
  induction n with
  | zero =>
    intro buf pos e h
    unfold parse_cars at h
    exact absurd h (by simp [rpure])
  | succ n ih =>
    intro buf pos e h
    unfold parse_cars at h
    rcases rbind_err_inv h with hc | ⟨c, p1, hc, h2⟩
    · refine ⟨0, by omega, ?_, fun j hj => absurd hj (by omega)⟩
      have e1 : pos + 56 * 0 = pos := by omega
      rw [e1]; exact hc
    · have hp1 : p1 = pos + 56 := parse_car_advances buf pos c p1 hc
      subst hp1
      rcases rbind_err_inv h2 with hrest | ⟨rest, p2, hrest, h3⟩
      · obtain ⟨i, hi, herr, hprev⟩ := ih buf (pos + 56) e hrest
        refine ⟨i + 1, by omega, ?_, ?_⟩
        · have e1 : pos + 56 * (i + 1) = pos + 56 + 56 * i := by ring
          rw [e1]; exact herr
        · intro j hj
          cases j with
          | zero =>
            refine ⟨c, ?_⟩
            have e1 : pos + 56 * 0 = pos := by omega
            have e2 : pos + 56 * (0 + 1) = pos + 56 := by omega
            rw [e1, e2]; exact hc
          | succ k =>
            obtain ⟨ck, hck⟩ := hprev k (by omega)
            refine ⟨ck, ?_⟩
            have e1 : pos + 56 * (k + 1) = pos + 56 + 56 * k := by ring
            have e2 : pos + 56 * (k + 1 + 1) = pos + 56 + 56 * (k + 1) := by ring
            rw [e1, e2]; exact hck
      · exact absurd h3 (by simp [rpure])

/-- Claim C6: the car-status packet decoder decodes exactly 20 per-car
slots in increasing index order; a successful result holds exactly 20
elements, element i decoded from the 56 bytes preceding those of element
i+1; on a decode error the whole decode returns the first slot's error and
no partially filled array. -/
theorem C6_car_status_twenty_slots (buf : List Nat) (hdr : PacketHeader) (pos : Nat) :
    match parse_car_status_data hdr buf pos with
    | .ok (pkt, q) =>
        pkt.car_status_data.length = 20 ∧ q = pos + 56 * 20 ∧
        ∀ i, i < 20 → ∃ c, pkt.car_status_data.get? i = some c ∧
          parse_car buf (pos + 56 * i) = .ok (c, pos + 56 * (i + 1))
    | .err e =>
        ∃ i, i < 20 ∧ parse_car buf (pos + 56 * i) = .err e ∧
        ∀ j, j < i → ∃ c, parse_car buf (pos + 56 * j)
          = .ok (c, pos + 56 * (j + 1))
    | .panicked => True := by
  cases hr : parse_car_status_data hdr buf pos with
  | ok pq =>
    obtain ⟨pkt, q⟩ := pq
    unfold parse_car_status_data at hr
    obtain ⟨cars, p1, hcars, h2⟩ := rbind_ok_inv hr
    obtain ⟨hpkt, hq⟩ := rpure_ok_inv h2
    subst hpkt; subst hq
    exact parse_cars_ok 20 buf pos cars q hcars
  | err e =>
    unfold parse_car_status_data at hr
    rcases rbind_err_inv hr with hcars | ⟨cars, p1, hcars, h2⟩
    · exact parse_cars_err 20 buf pos e hcars
    · exact absurd h2 (by simp [rpure])
  | panicked => trivial

/-- Claim C3 (counterexample): on a concrete 24-byte buffer the 2019 header
decoder succeeds with the cursor at offset 23, not at offset
0 + `PacketHeader::size()` = 24 as the claim states. -/
theorem C3_header_width_counterexample :
    parse_header (List.replicate 24 0) 0
      = .ok (PacketHeader.mk 0 0 0 0 0 0 0 0 0 255, 23)
    ∧ (0 : Nat) + PacketHeader.size ≠ 23 :=
  ⟨rfl, by decide⟩

/-- Claim C3 (amended): on every input on which it succeeds, the 2019
header decoder advances the cursor by exactly 23 bytes — one byte fewer
than the width `PacketHeader::size()` declares, which is 24. -/
theorem C3_header_width_amended (buf : List Nat) (pos : Nat)
    (hdr : PacketHeader) (q : Nat)
    (h : parse_header buf pos = .ok (hdr, q)) :
    q = pos + 23 ∧ PacketHeader.size = 24 :=
  ⟨parse_header_advances buf pos hdr q h, rfl⟩

/-- Witness for the amended C3 on a concrete 24-byte buffer. -/
theorem C3_header_width_amended_witness :
    (23 : Nat) = 0 + 23 ∧ PacketHeader.size = 24 :=
  C3_header_width_amended (List.replicate 24 0) 0
    (PacketHeader.mk 0 0 0 0 0 0 0 0 0 255) 23 rfl

/-- Claim C10: whatever the input buffer, a header produced by the 2019
header decoder carries the constant 255 as its secondary player-car index
(the tenth `PacketHeader::new` argument), independent of buffer content. -/
theorem C10_secondary_index_constant (buf : List Nat) (pos : Nat)
    (hdr : PacketHeader) (q : Nat)
    (h : parse_header buf pos = .ok (hdr, q)) :
    hdr.secondary_player_car_index = 255 := by
  unfold parse_header at h
  obtain ⟨a1, p1, _, h⟩ := rbind_ok_inv h
  obtain ⟨a2, p2, _, h⟩ := rbind_ok_inv h
  obtain ⟨a3, p3, _, h⟩ := rbind_ok_inv h
  obtain ⟨a4, p4, _, h⟩ := rbind_ok_inv h
  obtain ⟨a5, p5, _, h⟩ := rbind_ok_inv h
  obtain ⟨a6, p6, _, h⟩ := rbind_ok_inv h
  obtain ⟨a7, p7, _, h⟩ := rbind_ok_inv h
  obtain ⟨a8, p8, _, h⟩ := rbind_ok_inv h
  obtain ⟨a9, p9, _, h⟩ := rbind_ok_inv h
  obtain ⟨hhdr, _⟩ := rpure_ok_inv h
  rw [hhdr]

/-- Witness for C10 on a concrete 24-byte buffer. -/
theorem C10_secondary_index_constant_witness :
    (PacketHeader.mk 0 0 0 0 0 0 0 0 0 255).secondary_player_car_index = 255 :=
  C10_secondary_index_constant (List.replicate 24 0) 0
    (PacketHeader.mk 0 0 0 0 0 0 0 0 0 255) 23 rfl

/-! ## Multi-version dispatcher (`src/f1-telemetry/src/packet.rs`) -/

/-- The `Packet` enum of `src/f1-telemetry/src/packet.rs`. The payload
types other than `PacketCarStatusData` live in modules not under `src/`;
those variants are modelled as carrying the decoded header together with
the raw bytes their decoder would consume (per the spec, a per-type
decoder consumes the remaining bytes after the header). -/
inductive Packet where
  | Motion (header : PacketHeader) (body : List Nat)
  | Session (header : PacketHeader) (body : List Nat)
  | Lap (header : PacketHeader) (body : List Nat)
  | Event (header : PacketHeader) (body : List Nat)
  | Participants (header : PacketHeader) (body : List Nat)
  | CarSetups (header : PacketHeader) (body : List Nat)
  | CarTelemetry (header : PacketHeader) (body : List Nat)
  | CarStatus (p : PacketCarStatusData)
deriving DecidableEq, Repr

/-- Modelled from the spec: the 2019 per-format dispatcher
(`f1_2019::parse_packet`, whose module file is not under `src/`). Per the
spec's dispatcher contract it fails with the too-small error before any
decode when the declared length is below the format's header width,
decodes the header, and selects the per-type decoder from the header's
packet-type id; ids outside the known 2019 kinds are an invalid-type
error. The car-status arm is the decoder embedded above; the other arms'
payload decoding is abstracted to capturing the remaining bytes. -/
def f1_2019_parse_packet (size : Nat) (packet : List Nat) : DecodeOutcome Packet :=
  if size < PacketHeader.size then
    .err ("Invalid packet: too small (" ++ Nat.repr size ++ " bytes)")
  else
    match parse_header packet 0 with
    | .ok (header, pos) =>
      match header.packet_id with
      | 0 => .ok (Packet.Motion header (packet.drop pos))
      | 1 => .ok (Packet.Session header (packet.drop pos))
      | 2 => .ok (Packet.Lap header (packet.drop pos))
      | 3 => .ok (Packet.Event header (packet.drop pos))
      | 4 => .ok (Packet.Participants header (packet.drop pos))
      | 5 => .ok (Packet.CarSetups header (packet.drop pos))
      | 6 => .ok (Packet.CarTelemetry header (packet.drop pos))
      | 7 =>
        match parse_car_status_data header packet pos with
        | .ok (p, _) => .ok (Packet.CarStatus p)
        | .err e => .err e
        | .panicked => .panicked
      | v => .err ("Invalid PacketType: " ++ Nat.repr v)
    | .err e => .err e
    | .panicked => .panicked

/-- Modelled from the spec: the 2020 header decoder (module not under
`src/`). The later revision carries the secondary player-car index as a
tenth wire field, making its header 24 bytes wide (the spec: header width
differs by format revision — one revision's header omits a field another
revision has). -/
def parse_header_2020 : ByteReader PacketHeader :=
  rbind read_u16 fun packet_format =>
  rbind read_u8 fun game_major_version =>
  rbind read_u8 fun game_minor_version =>
  rbind read_u8 fun packet_version =>
  rbind read_u8 fun packet_id =>
  rbind read_u64 fun session_uid =>
  rbind read_f32 fun session_time =>
  rbind read_u32 fun frame_identifier =>
  rbind read_u8 fun player_car_index =>
  rbind read_u8 fun secondary_player_car_index =>
  rpure (PacketHeader.mk packet_format game_major_version game_minor_version
    packet_version packet_id session_uid session_time frame_identifier
    player_car_index secondary_player_car_index)

/-- Modelled from the spec: the 2020 header width. -/
def packet_header_2020_size : Nat := 24

/-- Modelled from the spec: the 2020 per-format dispatcher
(`f1_2020::parse_packet`, whose module is not under `src/`), parallel to
the 2019 one. Payload decoding is abstracted to capturing the remaining
bytes; the 2020 per-car car-status layout is not modelled, so that arm's
car list is left abstract (empty). Ids 8 and 9 (final classification and
lobby info) are recognized 2020 kinds with no decoder in the crate's
`Packet` enum, so they fail as recognized-but-unimplemented. -/
def f1_2020_parse_packet (size : Nat) (packet : List Nat) : DecodeOutcome Packet :=
  if size < packet_header_2020_size then
    .err ("Invalid packet: too small (" ++ Nat.repr size ++ " bytes)")
  else
    match parse_header_2020 packet 0 with
    | .ok (header, pos) =>
      match header.packet_id with
      | 0 => .ok (Packet.Motion header (packet.drop pos))
      | 1 => .ok (Packet.Session header (packet.drop pos))
      | 2 => .ok (Packet.Lap header (packet.drop pos))
      | 3 => .ok (Packet.Event header (packet.drop pos))
      | 4 => .ok (Packet.Participants header (packet.drop pos))
      | 5 => .ok (Packet.CarSetups header (packet.drop pos))
      | 6 => .ok (Packet.CarTelemetry header (packet.drop pos))
      | 7 => .ok (Packet.CarStatus (PacketCarStatusData.mk header []))
      | 8 => .err ("Unpacking not implemented for FinalClassification")
      | 9 => .err ("Unpacking not implemented for LobbyInfo")
      | v => .err ("Invalid PacketType: " ++ Nat.repr v)
    | .err e => .err e
    | .panicked => .panicked

/-- `parse_version` of `src/f1-telemetry/src/packet.rs`:
`packet[0] as u16 | ((packet[1] as u16) << 8)`. The slice indexing has no
bounds check, so on a datagram shorter than two bytes it panics. -/
def parse_version (packet : List Nat) : Option Nat :=
  match packet.get? 0, packet.get? 1 with
  | some b0, some b1 => some (Nat.lor b0 (Nat.shiftLeft b1 8))
  | _, _ => none

/-- `parse_packet` of `src/f1-telemetry/src/packet.rs`: reads the declared
format version from the first two bytes and dispatches to the matching
per-format decoder set; unknown versions are an error (the source's match
on the version literals is rendered as an if-chain). -/
def parse_packet (size : Nat) (packet : List Nat) : DecodeOutcome Packet :=
  match parse_version packet with
  | none => .panicked
  | some packet_format =>
    if packet_format = 2019 then f1_2019_parse_packet size packet
    else if packet_format = 2020 then f1_2020_parse_packet size packet
    else .err ("Invalid packet: unknown format (" ++ Nat.repr packet_format ++ ")")

/-- Claim C1 (failing input): on datagrams shorter than the minimum header
width — here the empty datagram and a one-byte datagram — `parse_packet`
panics (out-of-bounds index in `parse_version`) instead of returning the
`PacketTooSmall`/`Truncated` error the claim requires. -/
theorem C1_short_datagram_panics :
    parse_packet 0 [] = .panicked ∧ parse_packet 1 [227] = .panicked :=
  ⟨rfl, rfl⟩

/-- Claim C2: a datagram whose first two bytes read little-endian as 2019
(bytes 0xE3, 0x07) is dispatched to the 2019 decoder set, one reading 2020
(bytes 0xE4, 0x07) to the 2020 set, and any other declared version — e.g.
0x0001 — is an unknown-format-version error. -/
theorem C2_version_dispatch (size : Nat) (packet : List Nat) :
    (packet.get? 0 = some 227 → packet.get? 1 = some 7 →
      parse_packet size packet = f1_2019_parse_packet size packet)
    ∧ (packet.get? 0 = some 228 → packet.get? 1 = some 7 →
      parse_packet size packet = f1_2020_parse_packet size packet)
    ∧ (packet.get? 0 = some 1 → packet.get? 1 = some 0 →
      parse_packet size packet = .err ("Invalid packet: unknown format (1)"))
    ∧ (∀ v, parse_version packet = some v → v ≠ 2019 → v ≠ 2020 →
      parse_packet size packet
        = .err ("Invalid packet: unknown format (" ++ Nat.repr v ++ ")")) := by
  have hdisp : ∀ v, parse_version packet = some v →
      parse_packet size packet =
        (if v = 2019 then f1_2019_parse_packet size packet
         else if v = 2020 then f1_2020_parse_packet size packet
         else .err ("Invalid packet: unknown format (" ++ Nat.repr v ++ ")")) := by
    intro v hv
    unfold parse_packet
    rw [hv]
  refine ⟨?_, ?_, ?_, ?_⟩
  · intro h0 h1
    have hv : parse_version packet = some 2019 := by
      unfold parse_version
      rw [h0, h1]
      decide
    have h := hdisp 2019 hv
    rw [if_pos rfl] at h
    exact h
  · intro h0 h1
    have hv : parse_version packet = some 2020 := by
      unfold parse_version
      rw [h0, h1]
      decide
    have h := hdisp 2020 hv
    rw [if_neg (by decide), if_pos rfl] at h
    exact h
  · intro h0 h1
    have hv : parse_version packet = some 1 := by
      unfold parse_version
      rw [h0, h1]
      decide
    have h := hdisp 1 hv
    rw [if_neg (by decide), if_neg (by decide)] at h
    exact h.trans (by decide)
  · intro v hv h19 h20
    have h := hdisp v hv
    rw [if_neg h19, if_neg h20] at h
    exact h

/-- Witness for C2 on concrete datagrams: a 24-byte buffer declaring 2019
and a 2-byte buffer declaring version 1. -/
theorem C2_version_dispatch_witness :
    parse_packet 24 (227 :: 7 :: List.replicate 22 0)
      = f1_2019_parse_packet 24 (227 :: 7 :: List.replicate 22 0)
    ∧ parse_packet 2 [1, 0] = .err ("Invalid packet: unknown format (1)") :=
  ⟨(C2_version_dispatch 24 (227 :: 7 :: List.replicate 22 0)).1 rfl rfl,
   (C2_version_dispatch 2 [1, 0]).2.2.1 rfl rfl⟩

/-- Claim C9: decoding is deterministic and side-effect-free — the decoder
is a pure function of the declared size and the byte buffer, so equal
inputs give field-for-field equal results. -/
theorem C9_deterministic (s1 s2 : Nat) (p1 p2 : List Nat)
    (hs : s1 = s2) (hp : p1 = p2) :
    parse_packet s1 p1 = parse_packet s2 p2 := by
  rw [hs, hp]

/-- Witness for C9 on a concrete datagram. -/
theorem C9_deterministic_witness :
    parse_packet 24 (List.replicate 24 0) = parse_packet 24 (List.replicate 24 0) :=
  C9_deterministic 24 24 (List.replicate 24 0) (List.replicate 24 0) rfl rfl

/-! ## The earlier single-format dispatcher (`src/src/packet.rs`)

This crate revision decodes only the 2019 wire format. Its `PacketHeader`
struct and the payload `new` constructors live in modules not under
`src/`; header parsing is modelled by `parse_header` above (same 2019
wire layout), payload decoding is abstracted to capturing the remaining
bytes, and `mem::size_of::<PacketHeader>()` is modelled from the spec as
the minimum header size the dispatcher requires. -/

/-- The `PacketType` enum of `src/src/packet.rs`. -/
inductive OldPacketType where
  | Motion | Session | LapData | Event | Participants
  | CarSetups | CarTelemetry | CarStatus
deriving DecidableEq, Repr

/-- `impl TryFrom<u8> for PacketType` of `src/src/packet.rs`. -/
def OldPacketType.tryFrom (value : Nat) : Except String OldPacketType :=
  match value with
  | 0 => .ok OldPacketType.Motion
  | 1 => .ok OldPacketType.Session
  | 2 => .ok OldPacketType.LapData
  | 3 => .ok OldPacketType.Event
  | 4 => .ok OldPacketType.Participants
  | 5 => .ok OldPacketType.CarSetups
  | 6 => .ok OldPacketType.CarTelemetry
  | 7 => .ok OldPacketType.CarStatus
  | _ => .error ("Invalid PacketType: " ++ Nat.repr value)

/-- The variant name printed by the derived `Debug` formatting
(`format!` with the debug specifier) of `PacketType`. -/
def OldPacketType.debugName : OldPacketType → String
  | OldPacketType.Motion => "Motion"
  | OldPacketType.Session => "Session"
  | OldPacketType.LapData => "LapData"
  | OldPacketType.Event => "Event"
  | OldPacketType.Participants => "Participants"
  | OldPacketType.CarSetups => "CarSetups"
  | OldPacketType.CarTelemetry => "CarTelemetry"
  | OldPacketType.CarStatus => "CarStatus"

/-- The `Packet` enum of `src/src/packet.rs` (six variants — no Motion and
no CarSetups); payloads abstracted to the header and remaining bytes, the
payload structs being outside `src/`. -/
inductive OldPacket where
  | Session (header : PacketHeader) (body : List Nat)
  | Lap (header : PacketHeader) (body : List Nat)
  | Event (header : PacketHeader) (body : List Nat)
  | Participants (header : PacketHeader) (body : List Nat)
  | CarTelemetry (header : PacketHeader) (body : List Nat)
  | CarStatus (header : PacketHeader) (body : List Nat)
deriving DecidableEq, Repr

/-- Modelled from the spec: `mem::size_of::<PacketHeader>()`, the minimum
byte count the single-format dispatcher requires before decoding (the
spec's PacketTooSmall threshold; the 2019 header width declaration is
24). Claim C7 does not depend on its exact value. -/
def old_header_size : Nat := 24

/-- `parse_packet` of `src/src/packet.rs`: size check, header decode,
packet-type validation, dispatch. The `Motion` and `CarSetups` arms are
commented out in the source, so those recognized types fall into the
catch-all arm producing the unsupported-packet error with the debug name
of the type. -/
def old_parse_packet (size : Nat) (packet : List Nat) : DecodeOutcome OldPacket :=
  if size < old_header_size then
    .err ("Invalid packet: too small (" ++ Nat.repr size ++ " bytes)")
  else
    match parse_header packet 0 with
    | .ok (header, pos) =>
      match OldPacketType.tryFrom header.packet_id with
      | .error e => .err e
      | .ok packet_id =>
        match packet_id with
        | OldPacketType.Session => .ok (OldPacket.Session header (packet.drop pos))
        | OldPacketType.LapData => .ok (OldPacket.Lap header (packet.drop pos))
        | OldPacketType.Event => .ok (OldPacket.Event header (packet.drop pos))
        | OldPacketType.Participants =>
          .ok (OldPacket.Participants header (packet.drop pos))
        | OldPacketType.CarTelemetry =>
          .ok (OldPacket.CarTelemetry header (packet.drop pos))
        | OldPacketType.CarStatus =>
          .ok (OldPacket.CarStatus header (packet.drop pos))
        | other =>
          .err ("Unpacking not implemented for " ++ OldPacketType.debugName other)
    | .err e => .err e
    | .panicked => .panicked

theorem string_data_append (a b : String) : (a ++ b).data = a.data ++ b.data := by
  cases a; cases b; rfl

/-- The unsupported-packet message never coincides with an invalid-type
message: their first characters differ. -/
theorem unpacking_msg_ne_invalid_msg (s t : String) :
    ("Unpacking not implemented for " ++ s) ≠ ("Invalid PacketType: " ++ t) := by
  intro h
  have h2 := congrArg String.data h
  rw [string_data_append, string_data_append] at h2
  have h3 := congrArg List.head? h2
  have h4 : (some 'U' : Option Char) = some 'I' := h3
  injection h4 with h5
  exact absurd h5 (by decide)

/-- `PacketType::try_from` rejects every id above 7 with the invalid-type
message. -/
theorem oldPacketType_tryFrom_gt (v : Nat) (hv : 7 < v) :
    OldPacketType.tryFrom v = .error ("Invalid PacketType: " ++ Nat.repr v) := by
  obtain ⟨n, rfl⟩ : ∃ n, v = n + 8 := ⟨v - 8, by omega⟩
  rfl

/-- Claim C7: in the single-format dispatcher, a recognized packet-type id
with no implemented decoder (Motion = 0 or CarSetups = 5) makes
`parse_packet` return the unsupported-packet error, which is distinct from
the invalid-type error produced for every id greater than 7; in all these
cases the result is an error value, not a panic. -/
theorem C7_unsupported_packet_type (size : Nat) (packet : List Nat)
    (hdr : PacketHeader) (p : Nat)
    (hsize : ¬ size < old_header_size)
    (hH : parse_header packet 0 = .ok (hdr, p)) :
    (hdr.packet_id = 0 →
      old_parse_packet size packet
        = .err ("Unpacking not implemented for Motion"))
    ∧ (hdr.packet_id = 5 →
      old_parse_packet size packet
        = .err ("Unpacking not implemented for CarSetups"))
    ∧ (∀ v, hdr.packet_id = v → 7 < v →
      old_parse_packet size packet
        = .err ("Invalid PacketType: " ++ Nat.repr v))
    ∧ (∀ v, ("Unpacking not implemented for Motion" : String)
          ≠ "Invalid PacketType: " ++ Nat.repr v
        ∧ ("Unpacking not implemented for CarSetups" : String)
          ≠ "Invalid PacketType: " ++ Nat.repr v) := by
  have hbase : old_parse_packet size packet =
      (match OldPacketType.tryFrom hdr.packet_id with
      | .error e => .err e
      | .ok packet_id =>
        match packet_id with
        | OldPacketType.Session => .ok (OldPacket.Session hdr (packet.drop p))
        | OldPacketType.LapData => .ok (OldPacket.Lap hdr (packet.drop p))
        | OldPacketType.Event => .ok (OldPacket.Event hdr (packet.drop p))
        | OldPacketType.Participants =>
          .ok (OldPacket.Participants hdr (packet.drop p))
        | OldPacketType.CarTelemetry =>
          .ok (OldPacket.CarTelemetry hdr (packet.drop p))
        | OldPacketType.CarStatus =>
          .ok (OldPacket.CarStatus hdr (packet.drop p))
        | other =>
          .err ("Unpacking not implemented for " ++ OldPacketType.debugName other)) := by
    unfold old_parse_packet
    rw [if_neg hsize, hH]
  refine ⟨?_, ?_, ?_, ?_⟩
  · intro hid
    rw [hbase, hid]
    rfl
  · intro hid
    rw [hbase, hid]
    rfl
  · intro v hid hv
    rw [hbase, hid, oldPacketType_tryFrom_gt v hv]
  · intro v
    constructor
    · rw [show ("Unpacking not implemented for Motion" : String)
          = "Unpacking not implemented for " ++ "Motion" from rfl]
      exact unpacking_msg_ne_invalid_msg "Motion" (Nat.repr v)
    · rw [show ("Unpacking not implemented for CarSetups" : String)
          = "Unpacking not implemented for " ++ "CarSetups" from rfl]
      exact unpacking_msg_ne_invalid_msg "CarSetups" (Nat.repr v)

/-- Witness for C7: a concrete 24-byte datagram declaring packet id 0
(Motion) yields the unsupported-packet error. -/
theorem C7_unsupported_packet_type_witness :
    old_parse_packet 24 (227 :: 7 :: 1 :: List.replicate 21 0)
      = .err ("Unpacking not implemented for Motion")
    ∧ ("Unpacking not implemented for Motion" : String)
      ≠ "Invalid PacketType: " ++ Nat.repr 8 := by
  have h := C7_unsupported_packet_type 24 (227 :: 7 :: 1 :: List.replicate 21 0)
    (PacketHeader.mk 2019 1 0 0 0 0 0 0 0 255) 23 (by decide) rfl
  exact ⟨h.1 rfl, (h.2.2.2 8).1⟩

/-- Witness for C5 at the concrete out-of-table code 200. -/
theorem C5_coded_enum_tables_witness :
    TractionControl.tryFrom 200
      = .error ("Invalid TractionControl value: " ++ Nat.repr 200)
    ∧ FuelMix.tryFrom 200 = .error ("Invalid FuelMix value: " ++ Nat.repr 200)
    ∧ ERSDeployMode.tryFrom 200
      = .error ("Invalid ERSDeployMode value: " ++ Nat.repr 200) := by
  have h := C5_coded_enum_tables 200
  exact ⟨h.1.2.2.2 (by decide), h.2.1.2.2.2.2 (by decide),
    h.2.2.2.2.2.2.2.2 (by decide)⟩

/-- Witness for C6 on a malformed one-byte buffer: the whole decode fails
with the first slot's validation error and no partial array. -/
theorem C6_car_status_twenty_slots_witness :
    ∃ i, i < 20 ∧ parse_car [3] (0 + 56 * i)
        = .err ("Invalid TractionControl value: 3")
      ∧ ∀ j, j < i → ∃ c, parse_car [3] (0 + 56 * j)
        = .ok (c, 0 + 56 * (j + 1)) :=
  C6_car_status_twenty_slots [3] (PacketHeader.mk 0 0 0 0 0 0 0 0 0 255) 0
